import Mathlib

/-!
Shallow embedding of the Workflow Automation Platform backend
(`src/main.py`, `src/schemas.py`).

Documents stored in the database are modelled as association lists from
string keys to `Value`s, mirroring the Python dicts the handlers build and
the MongoDB documents they read back.  ObjectIds are modelled as strings
(the handlers themselves convert between `ObjectId` and `str` and store the
string form, e.g. `submission_id` inside approval records).

Each FastAPI handler that writes state becomes a function
`DB → args → DB × Except Err Resp`; a raised `HTTPException` corresponds to
an `Except.error`.  In `src/main.py` every raise happens before any write of
the same handler (checked handler by handler below), except
`archive_document`, whose `update_one` runs before the `matched_count`
check; there the model performs the update first exactly as the source
does, so the returned state is the post-update state even on the error
path.
-/

namespace WorkflowApp

/-- A BSON-ish value: the payloads the handlers in `src/main.py` store.
`vTime n` models a `datetime.utcnow()` timestamp as an abstract tick. -/
inductive Value where
  | vStr : String → Value
  | vBool : Bool → Value
  | vInt : Int → Value
  | vNull : Value
  | vTime : Nat → Value
  | vList : List Value → Value
  | vDoc : List (String × Value) → Value

/-- A stored document: an ordered mapping from field names to values,
as the Python dicts are. -/
abbrev Doc := List (String × Value)

/-- Field lookup in a document (`d.get(k)` / `d[k]` on a Python dict). -/
def Doc.get (d : Doc) (k : String) : Option Value :=
  (d.find? (fun p => p.1 == k)).map (fun p => p.2)

/-- `$set` of a single field: replace the (first) binding when the key is
present, append it otherwise (MongoDB `update_one` `$set` semantics; the
handlers only ever build duplicate-free documents, over which replacing the
first binding and replacing every binding coincide). -/
def Doc.set : Doc → String → Value → Doc
  | [], k, v => [(k, v)]
  | kv :: rest, k, v =>
      if kv.1 == k then (k, v) :: rest else kv :: Doc.set rest k v

/-- `$set` of several fields in order. -/
def Doc.setMany (d : Doc) (fs : List (String × Value)) : Doc :=
  fs.foldl (fun acc kv => acc.set kv.1 kv.2) d

/-- `None`-able string → stored value (`model_dump` turns `None` into null). -/
def optStr : Option String → Value
  | none => Value.vNull
  | some s => Value.vStr s

/-- Python's `x or default` on an optional string: `None` and `""` are both
falsy, so both fall back to the default. -/
def pyOr (x : Option String) (d : String) : String :=
  match x with
  | none => d
  | some s => if s = "" then d else s

/-- The collections `src/main.py` writes through `db[...]` /
`create_document`. -/
inductive Coll where
  | form | workflow | submission | approval | document | template
deriving DecidableEq

/-- The whole database plus the id generator and the clock.  Collections
are lists of (ObjectId, document) pairs, insertion-ordered; `nextId` feeds
fresh ObjectIds (modelled as decimal strings) and `now` is the value
`datetime.utcnow()` returns during the current request. -/
structure DB where
  form : List (String × Doc)
  workflow : List (String × Doc)
  submission : List (String × Doc)
  approval : List (String × Doc)
  document : List (String × Doc)
  template : List (String × Doc)
  nextId : Nat
  now : Nat

/-- The empty store. -/
def DB.empty : DB := ⟨[], [], [], [], [], [], 0, 0⟩

def DB.getColl (db : DB) : Coll → List (String × Doc)
  | .form => db.form
  | .workflow => db.workflow
  | .submission => db.submission
  | .approval => db.approval
  | .document => db.document
  | .template => db.template

def DB.setColl (db : DB) (c : Coll) (l : List (String × Doc)) : DB :=
  match c with
  | .form => { db with form := l }
  | .workflow => { db with workflow := l }
  | .submission => { db with submission := l }
  | .approval => { db with approval := l }
  | .document => { db with document := l }
  | .template => { db with template := l }

/-- Modelled from the spec: `create_document(collection, document)` lives in
`database.py`, which is not under `src/`; §6 gives its contract
`insert(collection, document) -> Id`.  It stores the document as given in
the named collection under a fresh ObjectId and returns that id. -/
def DB.createDocument (db : DB) (c : Coll) (d : Doc) : DB × String :=
  let id := toString db.nextId
  (({ db with nextId := db.nextId + 1 } : DB).setColl c
      ((db.getColl c) ++ [(id, d)]), id)

/-- `find_one({"_id": ObjectId(id)})` on a collection. -/
def DB.findOne (db : DB) (c : Coll) (id : String) : Option Doc :=
  ((db.getColl c).find? (fun p => p.1 == id)).map (fun p => p.2)

/-- `update_one({"_id": ObjectId(id)}, {"$set": fields})`: returns the new
state and the matched count (0 or 1). -/
def DB.updateOne (db : DB) (c : Coll) (id : String)
    (fields : List (String × Value)) : DB × Nat :=
  if (db.getColl c).any (fun p => p.1 == id) then
    (db.setColl c
       ((db.getColl c).map
         (fun p => if p.1 == id then (p.1, p.2.setMany fields) else p)),
     1)
  else
    (db, 0)

/-- The errors the handlers raise (`HTTPException`s of `src/main.py`). -/
inductive Err where
  | invalidAction                -- 400 "Invalid action"
  | notFound (detail : String)   -- 404
  | serviceUnavailable           -- 500 "PDF generator not available"
deriving DecidableEq

/-! ### Request payloads (the Pydantic models of `src/main.py`) -/

structure FormIn where
  name : String
  description : Option String
  fields : List Doc
  org_id : Option String

structure WorkflowIn where
  name : String
  description : Option String
  form_id : Option String
  steps : List Doc
  org_id : Option String
  category : Option String

structure SubmissionIn where
  form_id : String
  workflow_id : Option String
  data : Doc
  requester_id : Option String

structure ApprovalIn where
  submission_id : String
  action : String
  actor_id : Option String
  comment : Option String

structure GeneratePDFIn where
  submission_id : String
  title : Option String

/-! ### Handlers -/

/-- `POST /forms` (`create_form`, src/main.py:137-140). -/
def createForm (db : DB) (p : FormIn) : DB × String :=
  db.createDocument .form
    [("name", .vStr p.name), ("description", optStr p.description),
     ("fields", .vList (p.fields.map .vDoc)), ("org_id", optStr p.org_id)]

/-- `POST /workflows` (`create_workflow`, src/main.py:167-170). -/
def createWorkflow (db : DB) (p : WorkflowIn) : DB × String :=
  db.createDocument .workflow
    [("name", .vStr p.name), ("description", optStr p.description),
     ("form_id", optStr p.form_id),
     ("steps", .vList (p.steps.map .vDoc)),
     ("org_id", optStr p.org_id), ("category", optStr p.category)]

/-- `POST /submissions` (`create_submission`, src/main.py:190-195):
`sub = payload.model_dump(); sub["status"] = "pending"`. -/
def createSubmission (db : DB) (p : SubmissionIn) : DB × String :=
  db.createDocument .submission
    [("form_id", .vStr p.form_id), ("workflow_id", optStr p.workflow_id),
     ("data", .vDoc p.data), ("requester_id", optStr p.requester_id),
     ("status", .vStr "pending")]

/-- The approval-log document `act_on_submission` builds at
src/main.py:224-229. -/
def approvalRecord (p : ApprovalIn) : Doc :=
  [("submission_id", .vStr p.submission_id),
   ("action", .vStr p.action),
   ("actor_id", optStr p.actor_id),
   ("comment", .vStr (pyOr p.comment ""))]

/-- `POST /approvals` (`act_on_submission`, src/main.py:213-230).
Checks the action value, then the submission's existence; then
unconditionally sets the status from the action, stamps `updated_at`,
and appends one approval-log record.  The response is
`{"id": sid, "status": new_status}`. -/
def actOnSubmission (db : DB) (p : ApprovalIn) :
    DB × Except Err (String × String) :=
  if ¬ (p.action = "approved" ∨ p.action = "rejected") then
    (db, .error .invalidAction)
  else
    match db.findOne .submission p.submission_id with
    | none => (db, .error (.notFound "Submission not found"))
    | some _ =>
      let newStatus := if p.action = "approved" then "approved" else "rejected"
      let (db1, _) := db.updateOne .submission p.submission_id
        [("status", .vStr newStatus), ("updated_at", .vTime db.now)]
      let (db2, _) := db1.createDocument .approval (approvalRecord p)
      (db2, .ok (p.submission_id, newStatus))

/-- Modelled from the spec: PDF rendering (`reportlab`) is an external
collaborator — §6 `render(submission_snapshot, title?) -> bytes`, excluded
from the core by §1.  No claim inspects the bytes, so the base64 payload is
an opaque canonical string. -/
def renderB64 (sub : Doc) (title : Option String) : String :=
  let _ := sub
  let _ := title
  "JVBERi0="

/-- `POST /submissions/{submission_id}/generate-pdf` (`generate_pdf`,
src/main.py:238-285).  `rl` is `REPORTLAB_AVAILABLE`.  The stored document
record uses the path parameter `submission_id`, never
`payload.submission_id`. -/
def generatePdf (rl : Bool) (db : DB) (submission_id : String)
    (p : GeneratePDFIn) : DB × Except Err (String × String) :=
  if ¬ rl then
    (db, .error .serviceUnavailable)
  else
    match db.findOne .submission submission_id with
    | none => (db, .error (.notFound "Submission not found"))
    | some sub =>
      let (db1, docId) := db.createDocument .document
        [("submission_id", .vStr submission_id),
         ("title", .vStr (pyOr p.title "Generated PDF")),
         ("content_type", .vStr "application/pdf"),
         ("storage", .vStr "inline"),
         ("data_base64", .vStr (renderB64 sub p.title)),
         ("archived", .vBool false)]
      (db1, .ok (docId, submission_id))

/-- `POST /documents/{document_id}/archive` (`archive_document`,
src/main.py:287-292).  As in the source, the `update_one` runs first and the
`matched_count` check decides between 404 and success. -/
def archiveDocument (db : DB) (document_id : String) :
    DB × Except Err String :=
  let (db1, matched) := db.updateOne .document document_id
    [("archived", .vBool true), ("updated_at", .vTime db.now)]
  if matched = 0 then
    (db1, .error (.notFound "Document not found"))
  else
    (db1, .ok document_id)

/-- `POST /templates/seed` (`seed_templates`, src/main.py:328-421):
when the template collection is non-empty, does nothing; otherwise creates
three forms, three workflows and three template records. -/
def seedTemplates (db : DB) : DB × String :=
  if db.template.length > 0 then
    (db, "already_seeded")
  else
    let invoiceForm : Doc :=
      [("name", .vStr "Invoice Approval"),
       ("description", .vStr "Submit vendor invoice for approval"),
       ("fields", .vList
         [.vDoc [("key", .vStr "vendor"), ("label", .vStr "Vendor"),
                 ("type", .vStr "text"), ("required", .vBool true)],
          .vDoc [("key", .vStr "invoice_number"), ("label", .vStr "Invoice #"),
                 ("type", .vStr "text"), ("required", .vBool true)],
          .vDoc [("key", .vStr "amount"), ("label", .vStr "Amount"),
                 ("type", .vStr "currency"), ("required", .vBool true)],
          .vDoc [("key", .vStr "due_date"), ("label", .vStr "Due Date"),
                 ("type", .vStr "date")],
          .vDoc [("key", .vStr "attachment"), ("label", .vStr "Attachment"),
                 ("type", .vStr "file")]])]
    let (db1, fid1) := db.createDocument .form invoiceForm
    let invoiceWf : Doc :=
      [("name", .vStr "Invoice Approval Workflow"),
       ("description", .vStr "Manager approval then finance approval"),
       ("form_id", .vStr fid1), ("category", .vStr "Finance"),
       ("steps", .vList
         [.vDoc [("name", .vStr "Manager Review"), ("type", .vStr "approval"),
                 ("approver_role", .vStr "approver")],
          .vDoc [("name", .vStr "Finance Approval"), ("type", .vStr "approval"),
                 ("approver_role", .vStr "admin")]])]
    let (db2, wid1) := db1.createDocument .workflow invoiceWf
    let expenseForm : Doc :=
      [("name", .vStr "Expense Reimbursement"),
       ("description", .vStr "Claim employee expenses"),
       ("fields", .vList
         [.vDoc [("key", .vStr "employee"), ("label", .vStr "Employee"),
                 ("type", .vStr "text"), ("required", .vBool true)],
          .vDoc [("key", .vStr "category"), ("label", .vStr "Category"),
                 ("type", .vStr "select"),
                 ("options", .vList [.vStr "Travel", .vStr "Meals",
                                     .vStr "Office"]),
                 ("required", .vBool true)],
          .vDoc [("key", .vStr "amount"), ("label", .vStr "Amount"),
                 ("type", .vStr "currency"), ("required", .vBool true)],
          .vDoc [("key", .vStr "notes"), ("label", .vStr "Notes"),
                 ("type", .vStr "textarea")]])]
    let (db3, fid2) := db2.createDocument .form expenseForm
    let expenseWf : Doc :=
      [("name", .vStr "Expense Reimbursement Workflow"),
       ("description", .vStr "Manager approval"),
       ("form_id", .vStr fid2), ("category", .vStr "Finance"),
       ("steps", .vList
         [.vDoc [("name", .vStr "Manager Review"), ("type", .vStr "approval"),
                 ("approver_role", .vStr "approver")]])]
    let (db4, wid2) := db3.createDocument .workflow expenseWf
    let poForm : Doc :=
      [("name", .vStr "Purchase Order"),
       ("description", .vStr "Create purchase order"),
       ("fields", .vList
         [.vDoc [("key", .vStr "requester"), ("label", .vStr "Requester"),
                 ("type", .vStr "text"), ("required", .vBool true)],
          .vDoc [("key", .vStr "item"), ("label", .vStr "Item"),
                 ("type", .vStr "text"), ("required", .vBool true)],
          .vDoc [("key", .vStr "quantity"), ("label", .vStr "Quantity"),
                 ("type", .vStr "number"), ("required", .vBool true)],
          .vDoc [("key", .vStr "unit_price"), ("label", .vStr "Unit Price"),
                 ("type", .vStr "currency"), ("required", .vBool true)]])]
    let (db5, fid3) := db4.createDocument .form poForm
    let poWf : Doc :=
      [("name", .vStr "Purchase Order Workflow"),
       ("description", .vStr "Manager then finance approval"),
       ("form_id", .vStr fid3), ("category", .vStr "Finance"),
       ("steps", .vList
         [.vDoc [("name", .vStr "Manager Review"), ("type", .vStr "approval"),
                 ("approver_role", .vStr "approver")],
          .vDoc [("name", .vStr "Finance Approval"), ("type", .vStr "approval"),
                 ("approver_role", .vStr "admin")]])]
    let (db6, wid3) := db5.createDocument .workflow poWf
    let (db7, _) := db6.createDocument .template
      [("key", .vStr "invoice_approval"), ("name", .vStr "Invoice Approval"),
       ("description", .vStr "Vendor invoice approval"),
       ("form", .vDoc [("id", .vStr fid1)]),
       ("workflow", .vDoc [("id", .vStr wid1)])]
    let (db8, _) := db7.createDocument .template
      [("key", .vStr "expense_reimbursement"),
       ("name", .vStr "Expense Reimbursement"),
       ("description", .vStr "Employee expenses"),
       ("form", .vDoc [("id", .vStr fid2)]),
       ("workflow", .vDoc [("id", .vStr wid2)])]
    let (db9, _) := db8.createDocument .template
      [("key", .vStr "purchase_order"), ("name", .vStr "Purchase Order"),
       ("description", .vStr "PO creation and approval"),
       ("form", .vDoc [("id", .vStr fid3)]),
       ("workflow", .vDoc [("id", .vStr wid3)])]
    (db9, "seeded")

/-! ### Traces of write operations -/

/-- Any state-mutating request the API accepts (the read-only GET handlers
never write and are omitted). -/
inductive Op where
  | createForm (p : FormIn)
  | createWorkflow (p : WorkflowIn)
  | createSubmission (p : SubmissionIn)
  | actOnSubmission (p : ApprovalIn)
  | generatePdf (rl : Bool) (submission_id : String) (p : GeneratePDFIn)
  | archiveDocument (document_id : String)
  | seedTemplates

/-- The state after one request (its response and error are dropped; every
handler returns its post-write state on both paths). -/
def applyOp (db : DB) : Op → DB
  | .createForm p => (createForm db p).1
  | .createWorkflow p => (createWorkflow db p).1
  | .createSubmission p => (createSubmission db p).1
  | .actOnSubmission p => (actOnSubmission db p).1
  | .generatePdf rl sid p => (generatePdf rl db sid p).1
  | .archiveDocument did => (archiveDocument db did).1
  | .seedTemplates => (seedTemplates db).1

/-- The state after a sequence of requests. -/
def run (db : DB) : List Op → DB
  | [] => db
  | op :: ops => run (applyOp db op) ops

/-- Does this stored approval document reference submission `sid`? -/
def refersTo (d : Doc) (sid : String) : Bool :=
  match d.get "submission_id" with
  | some (.vStr s) => s == sid
  | _ => false

/-- The number of approval-log records referencing submission `sid`. -/
def countApprovals (db : DB) (sid : String) : Nat :=
  (db.approval.filter (fun p => refersTo p.2 sid)).length

/-- The approval-log records referencing submission `sid`. -/
def approvalsFor (db : DB) (sid : String) : List Doc :=
  (db.approval.filter (fun p => refersTo p.2 sid)).map (fun p => p.2)

/-- Is `op` an approve/reject call against `sid` that succeeds in state
`db`? -/
def succeedsOn (db : DB) (op : Op) (sid : String) : Bool :=
  match op with
  | .actOnSubmission p =>
      p.submission_id == sid && (actOnSubmission db p).2.isOk
  | _ => false

/-- The number of successful approve/reject actions against `sid` along a
trace starting in `db`. -/
def countSuccActs (db : DB) (ops : List Op) (sid : String) : Nat :=
  match ops with
  | [] => 0
  | op :: rest =>
      (if succeedsOn db op sid then 1 else 0) +
        countSuccActs (applyOp db op) rest sid

/-! ### Observations -/

/-- A field of the stored submission `sid`. -/
def subField (db : DB) (sid k : String) : Option Value :=
  (db.findOne .submission sid).bind (fun d => d.get k)

/-- Project a string out of an optional stored value. -/
def strVal : Option Value → Option String
  | some (Value.vStr s) => some s
  | _ => none

/-- The stored status string of submission `sid`, when it exists and is a
string. -/
def statusOf (db : DB) (sid : String) : Option String :=
  strVal (subField db sid "status")

end WorkflowApp

namespace WorkflowApp

/-! ### Concrete scenes used by counterexamples and witnesses -/

/-- The spec's §8 scenario submission: form F, data `vendor: Acme,
amount: 500`, no workflow. -/
def sampleSub : SubmissionIn :=
  ⟨"formF", none, [("vendor", .vStr "Acme"), ("amount", .vInt 500)], none⟩

/-- One pending submission (id `"0"`), nothing else. -/
def sampleDb : DB := (createSubmission DB.empty sampleSub).1

/-- `sampleDb` after `reject(actor=u2)`: submission `"0"` is `rejected` and
one approval record exists. -/
def sampleRejected : DB :=
  (actOnSubmission sampleDb ⟨"0", "rejected", some "u2", none⟩).1

/-- A workflow payload with two approval steps (the seeded Invoice workflow
shape). -/
def twoStepWf : WorkflowIn :=
  ⟨"Invoice Approval Workflow", none, none,
   [[("name", .vStr "Manager Review"), ("type", .vStr "approval"),
     ("approver_role", .vStr "approver")],
    [("name", .vStr "Finance Approval"), ("type", .vStr "approval"),
     ("approver_role", .vStr "admin")]],
   none, none⟩

/-- One two-step workflow (id `"0"`). -/
def wfDb : DB := (createWorkflow DB.empty twoStepWf).1

/-- `wfDb` plus a pending submission (id `"1"`) attached to workflow `"0"`. -/
def wfSubDb : DB :=
  (createSubmission wfDb ⟨"formF", some "0", [], none⟩).1

/-- The steps list stored on workflow `wid`. -/
def stepsOf (db : DB) (wid : String) : Option (List Value) :=
  match (db.findOne .workflow wid).bind (fun d => d.get "steps") with
  | some (.vList l) => some l
  | _ => none

/-- One generated PDF document (id `"1"`) attached to submission `"0"`. -/
def docDb : DB := (generatePdf true sampleDb "0" ⟨"0", none⟩).1

/-- The submission-status invariant the write operations preserve: every
stored submission's status is the string `pending`, `approved` or
`rejected`. -/
def subInv (db : DB) : Prop :=
  ∀ e ∈ db.submission, ∃ s, (Doc.get e.2 "status") = some (.vStr s) ∧
    (s = "pending" ∨ s = "approved" ∨ s = "rejected")

theorem Doc.get_cons (kv : String × Value) (d : Doc) (k : String) :
    Doc.get (kv :: d) k = if kv.1 == k then some kv.2 else d.get k := by
  simp only [Doc.get, List.find?_cons]
  split <;> simp_all

theorem Doc.get_set_self (d : Doc) (k : String) (v : Value) :
    (d.set k v).get k = some v := by
  induction d with
  | nil => simp [Doc.set, Doc.get_cons, Doc.get]
  | cons kv rest ih =>
    by_cases h : kv.1 == k
    · simp [Doc.set, h, Doc.get_cons]
    · simp [Doc.set, h, Doc.get_cons, ih]

theorem Doc.get_set_ne (d : Doc) (k k' : String) (v : Value) (h : k' ≠ k) :
    (d.set k v).get k' = d.get k' := by
  induction d with
  | nil =>
    simp [Doc.set, Doc.get_cons, Doc.get]
    intro hk
    exact absurd hk.symm h
  | cons kv rest ih =>
    by_cases hkv : kv.1 == k
    · have hkv' : kv.1 = k := by simpa using hkv
      simp [Doc.set, hkv, Doc.get_cons, hkv', h, Ne.symm h]
    · simp [Doc.set, hkv, Doc.get_cons, ih]

theorem DB.getColl_setColl_self (db : DB) (c : Coll) (l : List (String × Doc)) :
    (db.setColl c l).getColl c = l := by
  cases c <;> rfl

theorem DB.getColl_setColl_ne (db : DB) (c c' : Coll) (l : List (String × Doc))
    (h : c' ≠ c) : (db.setColl c l).getColl c' = db.getColl c' := by
  cases c <;> cases c' <;> first | rfl | exact absurd rfl h

theorem DB.nextId_setColl (db : DB) (c : Coll) (l : List (String × Doc)) :
    (db.setColl c l).nextId = db.nextId := by
  cases c <;> rfl

theorem DB.now_setColl (db : DB) (c : Coll) (l : List (String × Doc)) :
    (db.setColl c l).now = db.now := by
  cases c <;> rfl

theorem DB.getColl_createDocument_self (db : DB) (c : Coll) (d : Doc) :
    ((db.createDocument c d).1).getColl c
      = db.getColl c ++ [(toString db.nextId, d)] := by
  cases c <;> rfl

theorem DB.getColl_createDocument_ne (db : DB) (c c' : Coll) (d : Doc)
    (h : c' ≠ c) :
    ((db.createDocument c d).1).getColl c' = db.getColl c' := by
  cases c <;> cases c' <;> first | rfl | exact absurd rfl h

theorem DB.nextId_createDocument (db : DB) (c : Coll) (d : Doc) :
    ((db.createDocument c d).1).nextId = db.nextId + 1 := by
  cases c <;> rfl

theorem DB.now_createDocument (db : DB) (c : Coll) (d : Doc) :
    ((db.createDocument c d).1).now = db.now := by
  cases c <;> rfl

theorem DB.getColl_updateOne_ne (db : DB) (c c' : Coll) (id : String)
    (fs : List (String × Value)) (h : c' ≠ c) :
    ((db.updateOne c id fs).1).getColl c' = db.getColl c' := by
  unfold DB.updateOne
  split
  · exact DB.getColl_setColl_ne _ _ _ _ h
  · rfl

theorem DB.nextId_updateOne (db : DB) (c : Coll) (id : String)
    (fs : List (String × Value)) :
    ((db.updateOne c id fs).1).nextId = db.nextId := by
  unfold DB.updateOne
  split
  · exact DB.nextId_setColl _ _ _
  · rfl

theorem DB.now_updateOne (db : DB) (c : Coll) (id : String)
    (fs : List (String × Value)) :
    ((db.updateOne c id fs).1).now = db.now := by
  unfold DB.updateOne
  split
  · exact DB.now_setColl _ _ _
  · rfl

end WorkflowApp

namespace WorkflowApp

theorem find?_map_update (l : List (String × Doc)) (id : String)
    (f : Doc → Doc) (d : Doc)
    (h : (l.find? (fun p => p.1 == id)).map (fun p => p.2) = some d) :
    ((l.map (fun p => if p.1 == id then (p.1, f p.2) else p)).find?
        (fun p => p.1 == id)).map (fun p => p.2) = some (f d) := by
  induction l with
  | nil => simp at h
  | cons e rest ih =>
    by_cases he : e.1 == id
    · have hd : d = e.2 := by
        simp only [List.find?_cons, he, Option.map_some',
          Option.some.injEq] at h
        exact h.symm
      subst hd
      simp only [List.map_cons, if_pos he]
      simp only [List.find?_cons]
      simp [he]
    · simp only [List.find?_cons, he] at h
      simp only [List.map_cons, if_neg he]
      simp only [List.find?_cons, he]
      exact ih h

theorem find?_map_update_ne (l : List (String × Doc)) (id id' : String)
    (f : Doc → Doc) (h : id' ≠ id) :
    (l.map (fun p => if p.1 == id then (p.1, f p.2) else p)).find?
        (fun p => p.1 == id')
      = l.find? (fun p => p.1 == id') := by
  induction l with
  | nil => rfl
  | cons e rest ih =>
    by_cases he : e.1 == id
    · have he1 : e.1 = id := by simpa using he
      have he' : (e.1 == id') = false := by simp [he1, Ne.symm h]
      simp only [List.map_cons, if_pos he]
      simp only [List.find?_cons, he', he1]
      have hid : (id == id') = false := by simp [Ne.symm h]
      simp only [hid]
      exact ih
    · simp only [List.map_cons, if_neg he]
      simp only [List.find?_cons]
      cases he' : (e.1 == id') with
      | true => rfl
      | false => exact ih

theorem DB.findOne_updateOne_self (db : DB) (c : Coll) (id : String)
    (fs : List (String × Value)) (d : Doc)
    (h : db.findOne c id = some d) :
    ((db.updateOne c id fs).1).findOne c id = some (d.setMany fs) := by
  have hany : (db.getColl c).any (fun p => p.1 == id) = true := by
    rcases Option.map_eq_some'.mp h with ⟨e, he, _⟩
    exact List.any_eq_true.mpr ⟨e, List.mem_of_find?_eq_some he, by
      simpa using List.find?_some he⟩
  unfold DB.updateOne
  rw [if_pos hany]
  unfold DB.findOne
  rw [DB.getColl_setColl_self]
  exact find?_map_update _ _ (fun x => x.setMany fs) _ h

theorem DB.findOne_updateOne_ne (db : DB) (c : Coll) (id id' : String)
    (fs : List (String × Value)) (h : id' ≠ id) :
    ((db.updateOne c id fs).1).findOne c id' = db.findOne c id' := by
  unfold DB.updateOne
  split
  · unfold DB.findOne
    rw [DB.getColl_setColl_self,
        find?_map_update_ne _ _ _ (fun x => x.setMany fs) h]
  · rfl

theorem DB.findOne_updateOne_other (db : DB) (c c' : Coll) (id id' : String)
    (fs : List (String × Value)) (h : c' ≠ c) :
    ((db.updateOne c id fs).1).findOne c' id' = db.findOne c' id' := by
  unfold DB.findOne
  rw [DB.getColl_updateOne_ne _ _ _ _ _ h]

theorem DB.findOne_createDocument_fresh (db : DB) (c : Coll) (d : Doc)
    (h : db.findOne c (toString db.nextId) = none) :
    ((db.createDocument c d).1).findOne c (toString db.nextId) = some d := by
  unfold DB.findOne
  rw [DB.getColl_createDocument_self, List.find?_append]
  unfold DB.findOne at h
  rw [Option.map_eq_none'.mp h]
  simp [List.find?_cons]

theorem DB.findOne_createDocument_ne (db : DB) (c : Coll) (d : Doc)
    (id : String) (h : id ≠ toString db.nextId) :
    ((db.createDocument c d).1).findOne c id = db.findOne c id := by
  unfold DB.findOne
  rw [DB.getColl_createDocument_self, List.find?_append]
  have hne : (toString db.nextId == id) = false := by simpa using Ne.symm h
  have : ([(toString db.nextId, d)].find? (fun p => p.1 == id)) = none := by
    simp only [List.find?_cons, hne, List.find?_nil]
  rw [this]
  cases (db.getColl c).find? (fun p => p.1 == id) <;> rfl

theorem DB.findOne_createDocument_other (db : DB) (c c' : Coll) (d : Doc)
    (id : String) (h : c' ≠ c) :
    ((db.createDocument c d).1).findOne c' id = db.findOne c' id := by
  unfold DB.findOne
  rw [DB.getColl_createDocument_ne _ _ _ _ h]

theorem countApprovals_congr (db db' : DB) (sid : String)
    (h : db'.approval = db.approval) :
    countApprovals db' sid = countApprovals db sid := by
  unfold countApprovals
  rw [h]

end WorkflowApp

namespace WorkflowApp

theorem actOnSubmission_invalid (db : DB) (p : ApprovalIn)
    (h : ¬ (p.action = "approved" ∨ p.action = "rejected")) :
    actOnSubmission db p = (db, .error .invalidAction) := by
  unfold actOnSubmission
  rw [if_pos h]

theorem actOnSubmission_notFound (db : DB) (p : ApprovalIn)
    (ha : p.action = "approved" ∨ p.action = "rejected")
    (hf : db.findOne .submission p.submission_id = none) :
    actOnSubmission db p = (db, .error (.notFound "Submission not found")) := by
  unfold actOnSubmission
  rw [if_neg (not_not_intro ha), hf]

theorem actOnSubmission_ok (db : DB) (p : ApprovalIn) (d : Doc)
    (ha : p.action = "approved" ∨ p.action = "rejected")
    (hf : db.findOne .submission p.submission_id = some d) :
    actOnSubmission db p =
      ((((db.updateOne .submission p.submission_id
            [("status", .vStr (if p.action = "approved" then "approved"
                               else "rejected")),
             ("updated_at", .vTime db.now)]).1).createDocument .approval
          (approvalRecord p)).1,
       .ok (p.submission_id,
            if p.action = "approved" then "approved" else "rejected")) := by
  unfold actOnSubmission
  rw [if_neg (not_not_intro ha), hf]

theorem seedTemplates_approval (db : DB) :
    (seedTemplates db).1.approval = db.approval := by
  unfold seedTemplates
  split <;> rfl

theorem seedTemplates_submission (db : DB) :
    (seedTemplates db).1.submission = db.submission := by
  unfold seedTemplates
  split <;> rfl

theorem generatePdf_approval (rl : Bool) (db : DB) (sid : String)
    (p : GeneratePDFIn) :
    (generatePdf rl db sid p).1.approval = db.approval := by
  unfold generatePdf
  split
  · rfl
  · split <;> rfl

theorem generatePdf_submission (rl : Bool) (db : DB) (sid : String)
    (p : GeneratePDFIn) :
    (generatePdf rl db sid p).1.submission = db.submission := by
  unfold generatePdf
  split
  · rfl
  · split <;> rfl

theorem archiveDocument_approval (db : DB) (did : String) :
    (archiveDocument db did).1.approval = db.approval := by
  unfold archiveDocument
  have h : ((db.updateOne .document did
      [("archived", .vBool true), ("updated_at", .vTime db.now)]).1).approval
      = db.approval :=
    DB.getColl_updateOne_ne db .document .approval did
      [("archived", .vBool true), ("updated_at", .vTime db.now)] (by simp)
  split
  next db1 m heq =>
    rw [heq] at h
    split <;> exact h

theorem archiveDocument_submission (db : DB) (did : String) :
    (archiveDocument db did).1.submission = db.submission := by
  unfold archiveDocument
  have h : ((db.updateOne .document did
      [("archived", .vBool true), ("updated_at", .vTime db.now)]).1).submission
      = db.submission :=
    DB.getColl_updateOne_ne db .document .submission did
      [("archived", .vBool true), ("updated_at", .vTime db.now)] (by simp)
  split
  next db1 m heq =>
    rw [heq] at h
    split <;> exact h

theorem refersTo_approvalRecord (p : ApprovalIn) (sid : String) :
    refersTo (approvalRecord p) sid = (p.submission_id == sid) := rfl

end WorkflowApp

namespace WorkflowApp

theorem DB.approval_createDocument_approval (db : DB) (d : Doc) :
    ((db.createDocument .approval d).1).approval
      = db.approval ++ [(toString db.nextId, d)] := rfl

theorem ok_approval (db : DB) (p : ApprovalIn) (d : Doc)
    (ha : p.action = "approved" ∨ p.action = "rejected")
    (hf : db.findOne .submission p.submission_id = some d) :
    (actOnSubmission db p).1.approval
      = db.approval ++ [(toString db.nextId, approvalRecord p)] := by
  rw [actOnSubmission_ok db p d ha hf]
  have h2 : ((db.updateOne .submission p.submission_id
      [("status", .vStr (if p.action = "approved" then "approved"
                         else "rejected")),
       ("updated_at", .vTime db.now)]).1).approval = db.approval :=
    DB.getColl_updateOne_ne db .submission .approval _ _ (by simp)
  have h3 : ((db.updateOne .submission p.submission_id
      [("status", .vStr (if p.action = "approved" then "approved"
                         else "rejected")),
       ("updated_at", .vTime db.now)]).1).nextId = db.nextId :=
    DB.nextId_updateOne db .submission _ _
  rw [DB.approval_createDocument_approval, h2, h3]

theorem countApprovals_applyOp (db : DB) (op : Op) (sid : String) :
    countApprovals (applyOp db op) sid
      = countApprovals db sid + (if succeedsOn db op sid then 1 else 0) := by
  cases op with
  | createForm p =>
    have h : (createForm db p).1.approval = db.approval :=
      DB.getColl_createDocument_ne db .form .approval _ (by simp)
    simp [applyOp, succeedsOn, countApprovals_congr _ _ _ h]
  | createWorkflow p =>
    have h : (createWorkflow db p).1.approval = db.approval :=
      DB.getColl_createDocument_ne db .workflow .approval _ (by simp)
    simp [applyOp, succeedsOn, countApprovals_congr _ _ _ h]
  | createSubmission p =>
    have h : (createSubmission db p).1.approval = db.approval :=
      DB.getColl_createDocument_ne db .submission .approval _ (by simp)
    simp [applyOp, succeedsOn, countApprovals_congr _ _ _ h]
  | generatePdf rl s p =>
    simp [applyOp, succeedsOn,
      countApprovals_congr _ _ _ (generatePdf_approval rl db s p)]
  | archiveDocument did =>
    simp [applyOp, succeedsOn,
      countApprovals_congr _ _ _ (archiveDocument_approval db did)]
  | seedTemplates =>
    simp [applyOp, succeedsOn,
      countApprovals_congr _ _ _ (seedTemplates_approval db)]
  | actOnSubmission p =>
    by_cases ha : p.action = "approved" ∨ p.action = "rejected"
    · cases hf : db.findOne .submission p.submission_id with
      | none =>
        have h := actOnSubmission_notFound db p ha hf
        simp [applyOp, succeedsOn, h, Except.isOk, Except.toBool]
      | some d =>
        have hap := ok_approval db p d ha hf
        have hok : (actOnSubmission db p).2.isOk = true := by
          rw [actOnSubmission_ok db p d ha hf]
          rfl
        have hcount : countApprovals (actOnSubmission db p).1 sid
            = countApprovals db sid
              + (if p.submission_id == sid then 1 else 0) := by
          unfold countApprovals
          rw [hap, List.filter_append, List.length_append]
          simp only [List.filter, refersTo_approvalRecord]
          cases hs : (p.submission_id == sid) <;> simp [hs]
        simp only [applyOp, succeedsOn, hok, Bool.and_true, hcount]
    · have h := actOnSubmission_invalid db p ha
      simp [applyOp, succeedsOn, h, Except.isOk, Except.toBool]

end WorkflowApp

namespace WorkflowApp

theorem actOnSubmission_isOk_inv (db : DB) (p : ApprovalIn)
    (h : (actOnSubmission db p).2.isOk = true) :
    (p.action = "approved" ∨ p.action = "rejected") ∧
      ∃ d, db.findOne .submission p.submission_id = some d := by
  by_cases ha : p.action = "approved" ∨ p.action = "rejected"
  · cases hf : db.findOne .submission p.submission_id with
    | none =>
      rw [actOnSubmission_notFound db p ha hf] at h
      simp [Except.isOk, Except.toBool] at h
    | some d => exact ⟨ha, d, rfl⟩
  · rw [actOnSubmission_invalid db p ha] at h
    simp [Except.isOk, Except.toBool] at h

theorem statusOf_actOnSubmission_ok (db : DB) (p : ApprovalIn) (d : Doc)
    (ha : p.action = "approved" ∨ p.action = "rejected")
    (hf : db.findOne .submission p.submission_id = some d) :
    statusOf (actOnSubmission db p).1 p.submission_id
      = some (if p.action = "approved" then "approved" else "rejected") := by
  unfold statusOf subField
  rw [actOnSubmission_ok db p d ha hf]
  rw [DB.findOne_createDocument_other _ .approval .submission _ _ (by simp),
      DB.findOne_updateOne_self _ _ _ _ d hf]
  rw [Option.some_bind]
  rw [show Doc.setMany d
        [("status", Value.vStr (if p.action = "approved" then "approved"
                                else "rejected")),
         ("updated_at", Value.vTime db.now)]
      = ((d.set "status" (Value.vStr (if p.action = "approved" then "approved"
                                      else "rejected"))).set "updated_at"
          (Value.vTime db.now)) from rfl]
  rw [Doc.get_set_ne _ _ _ _ (by decide), Doc.get_set_self]
  rfl

theorem countApprovals_actOnSubmission_ok (db : DB) (p : ApprovalIn) (d : Doc)
    (ha : p.action = "approved" ∨ p.action = "rejected")
    (hf : db.findOne .submission p.submission_id = some d) :
    countApprovals (actOnSubmission db p).1 p.submission_id
      = countApprovals db p.submission_id + 1 := by
  unfold countApprovals
  rw [ok_approval db p d ha hf, List.filter_append, List.length_append]
  simp [List.filter_cons, refersTo_approvalRecord]

theorem approvalsFor_actOnSubmission_ok (db : DB) (p : ApprovalIn) (d : Doc)
    (ha : p.action = "approved" ∨ p.action = "rejected")
    (hf : db.findOne .submission p.submission_id = some d) :
    approvalsFor (actOnSubmission db p).1 p.submission_id
      = approvalsFor db p.submission_id ++ [approvalRecord p] := by
  unfold approvalsFor
  rw [ok_approval db p d ha hf, List.filter_append, List.map_append]
  simp [List.filter_cons, refersTo_approvalRecord]

end WorkflowApp

namespace WorkflowApp

/-! ### C1 -/

/-- C1 counterexample: submission `"0"` of `sampleRejected` is stored with
status `rejected`, yet a further approve call does not fail (the model's
error type has no `InvalidTransition` at all because `act_on_submission`
never checks the current status): it returns ok, flips the status to
`approved`, and appends a second approval record. -/
theorem terminal_approve_counterexample :
    statusOf sampleRejected "0" = some "rejected" ∧
    countApprovals sampleRejected "0" = 1 ∧
    (actOnSubmission sampleRejected ⟨"0", "approved", some "u1", none⟩).2
      = .ok ("0", "approved") ∧
    statusOf
        (actOnSubmission sampleRejected ⟨"0", "approved", some "u1", none⟩).1
        "0"
      = some "approved" ∧
    countApprovals
        (actOnSubmission sampleRejected ⟨"0", "approved", some "u1", none⟩).1
        "0"
      = 2 :=
  ⟨rfl, rfl, rfl, rfl, rfl⟩

/-- C1 (amended): `act_on_submission` performs no status check whatsoever.
For every stored submission — whatever its status, including approved,
rejected, or archived — an approve/reject call succeeds, overwrites the
status with the action's value, and appends exactly one new approval
record. -/
theorem actOnSubmission_ignores_status (db : DB) (p : ApprovalIn) (d : Doc)
    (ha : p.action = "approved" ∨ p.action = "rejected")
    (hf : db.findOne .submission p.submission_id = some d) :
    (actOnSubmission db p).2
        = .ok (p.submission_id,
               if p.action = "approved" then "approved" else "rejected") ∧
    statusOf (actOnSubmission db p).1 p.submission_id
        = some (if p.action = "approved" then "approved" else "rejected") ∧
    countApprovals (actOnSubmission db p).1 p.submission_id
        = countApprovals db p.submission_id + 1 := by
  refine ⟨?_, statusOf_actOnSubmission_ok db p d ha hf,
    countApprovals_actOnSubmission_ok db p d ha hf⟩
  rw [actOnSubmission_ok db p d ha hf]

/-- Witness for `actOnSubmission_ignores_status` on the concrete rejected
submission of `sampleRejected`. -/
theorem actOnSubmission_ignores_status_witness :
    (actOnSubmission sampleRejected ⟨"0", "rejected", some "u9", none⟩).2
      = .ok ("0", "rejected") ∧
    statusOf
        (actOnSubmission sampleRejected ⟨"0", "rejected", some "u9", none⟩).1
        "0"
      = some "rejected" ∧
    countApprovals
        (actOnSubmission sampleRejected ⟨"0", "rejected", some "u9", none⟩).1
        "0"
      = countApprovals sampleRejected "0" + 1 := by
  simpa using actOnSubmission_ignores_status sampleRejected
    ⟨"0", "rejected", some "u9", none⟩ _ (Or.inr rfl) rfl

end WorkflowApp

namespace WorkflowApp

/-! ### C2 -/

/-- C2 counterexample: in `wfSubDb`, submission `"1"` is pending and attached
to workflow `"0"`, which has exactly two approval steps; yet the FIRST
approve call already sets the status to `approved` instead of leaving it
pending — the code reads no step information. -/
theorem two_step_first_approve_counterexample :
    (stepsOf wfSubDb "0").map List.length = some 2 ∧
    subField wfSubDb "1" "workflow_id" = some (.vStr "0") ∧
    statusOf wfSubDb "1" = some "pending" ∧
    statusOf (actOnSubmission wfSubDb ⟨"1", "approved", some "u1", none⟩).1 "1"
      = some "approved" ∧
    statusOf (actOnSubmission wfSubDb ⟨"1", "approved", some "u1", none⟩).1 "1"
      ≠ some "pending" :=
  ⟨rfl, rfl, rfl, rfl, by decide⟩

/-- C2 (amended): the engine ignores workflow steps entirely (no
`current_step_index` exists): for every pending submission attached to a
workflow with two approval steps, the FIRST approve action already
transitions the status to `approved`. -/
theorem first_approve_of_two_step_workflow_approves (db : DB)
    (p : ApprovalIn) (d : Doc) (wid : String) (w : Doc) (l : List Value)
    (ha : p.action = "approved")
    (hf : db.findOne .submission p.submission_id = some d)
    (hpend : d.get "status" = some (.vStr "pending"))
    (hwid : d.get "workflow_id" = some (.vStr wid))
    (hwf : db.findOne .workflow wid = some w)
    (hsteps : w.get "steps" = some (.vList l))
    (hlen : l.length = 2) :
    (actOnSubmission db p).2 = .ok (p.submission_id, "approved") ∧
    statusOf (actOnSubmission db p).1 p.submission_id = some "approved" := by
  have ha' : p.action = "approved" ∨ p.action = "rejected" := Or.inl ha
  constructor
  · rw [actOnSubmission_ok db p d ha' hf, ha]
    rfl
  · have h := statusOf_actOnSubmission_ok db p d ha' hf
    rw [ha] at h
    simpa using h

/-- Witness for `first_approve_of_two_step_workflow_approves` on the
concrete two-step scene `wfSubDb`. -/
theorem first_approve_of_two_step_workflow_approves_witness :
    (actOnSubmission wfSubDb ⟨"1", "approved", some "u1", none⟩).2
      = .ok ("1", "approved") ∧
    statusOf (actOnSubmission wfSubDb ⟨"1", "approved", some "u1", none⟩).1 "1"
      = some "approved" :=
  first_approve_of_two_step_workflow_approves wfSubDb
    ⟨"1", "approved", some "u1", none⟩ _ "0" _ _
    rfl rfl rfl rfl rfl rfl rfl

/-! ### C5 -/

/-- C5 counterexample: calling with an unknown submission id AND an action
outside the approve/reject pair fails with InvalidAction, not NotFound —
the action check at src/main.py:215 runs before the absence check at
src/main.py:219, contradicting the claimed precedence. -/
theorem missing_submission_invalid_action_counterexample :
    DB.empty.findOne .submission "0" = none ∧
    actOnSubmission DB.empty ⟨"0", "foo", none, none⟩
      = (DB.empty, .error .invalidAction) ∧
    (actOnSubmission DB.empty ⟨"0", "foo", none, none⟩).2
      ≠ .error (.notFound "Submission not found") := by
  refine ⟨rfl, rfl, ?_⟩
  intro h
  have h2 : Except.error (α := String × String) Err.invalidAction
      = Except.error (Err.notFound "Submission not found") := h
  simp at h2

/-- C5 (amended): for an absent submission id, the outcome depends on the
action value because the action check precedes the absence check: a call
with action outside the approve/reject pair fails with InvalidAction even
though no submission exists; a call with a valid action fails with NotFound.
Either way the state is unchanged. -/
theorem missing_submission_error_order (db : DB) (p : ApprovalIn)
    (hne : db.findOne .submission p.submission_id = none) :
    actOnSubmission db p
      = (db, if p.action = "approved" ∨ p.action = "rejected"
             then .error (.notFound "Submission not found")
             else .error .invalidAction) := by
  by_cases ha : p.action = "approved" ∨ p.action = "rejected"
  · rw [actOnSubmission_notFound db p ha hne, if_pos ha]
  · rw [actOnSubmission_invalid db p ha, if_neg ha]

/-- Witness for `missing_submission_error_order`: the empty store holds no
submission `"0"`, and a valid-action call against it fails NotFound. -/
theorem missing_submission_error_order_witness :
    actOnSubmission DB.empty ⟨"0", "approved", none, none⟩
      = (DB.empty, .error (.notFound "Submission not found")) := by
  simpa using missing_submission_error_order DB.empty
    ⟨"0", "approved", none, none⟩ rfl

end WorkflowApp

namespace WorkflowApp

/-! ### C4 -/

/-- C4: every successful approve/reject call appends exactly one approval
record referencing its submission, and along any trace of write requests
the number of approval records referencing a submission grows by exactly
the number of successful approve/reject actions against it — the audit
trail is append-only, never fewer, never more. -/
theorem approval_count_equals_successful_actions :
    (∀ (db : DB) (ops : List Op) (sid : String),
      countApprovals (run db ops) sid
        = countApprovals db sid + countSuccActs db ops sid) ∧
    (∀ (db : DB) (p : ApprovalIn),
      (actOnSubmission db p).2.isOk = true →
      (actOnSubmission db p).1.approval
        = db.approval ++ [(toString db.nextId, approvalRecord p)]) := by
  constructor
  · intro db ops sid
    induction ops generalizing db with
    | nil => simp [run, countSuccActs]
    | cons op rest ih =>
      simp only [run, countSuccActs]
      rw [ih (applyOp db op), countApprovals_applyOp]
      omega
  · intro db p h
    obtain ⟨ha, d, hf⟩ := actOnSubmission_isOk_inv db p h
    exact ok_approval db p d ha hf

/-- Witness for `approval_count_equals_successful_actions` on a concrete
two-request trace against submission `"0"`. -/
theorem approval_count_equals_successful_actions_witness :
    (countApprovals
        (run sampleDb [Op.actOnSubmission ⟨"0", "approved", some "u1", none⟩,
                       Op.actOnSubmission ⟨"9", "approved", none, none⟩])
        "0"
      = countApprovals sampleDb "0"
        + countSuccActs sampleDb
            [Op.actOnSubmission ⟨"0", "approved", some "u1", none⟩,
             Op.actOnSubmission ⟨"9", "approved", none, none⟩] "0") ∧
    ((actOnSubmission sampleDb ⟨"0", "approved", some "u1", none⟩).1.approval
      = sampleDb.approval
        ++ [(toString sampleDb.nextId,
             approvalRecord ⟨"0", "approved", some "u1", none⟩)]) :=
  ⟨approval_count_equals_successful_actions.1 sampleDb _ "0",
   approval_count_equals_successful_actions.2 sampleDb _ rfl⟩

/-! ### C6 -/

/-- C6: a submission created with no workflow attached starts `pending`; a
single approve by actor u1 then succeeds, the status becomes `approved`,
and exactly one approval record referencing it exists, carrying action
`approved` and actor u1.  Freshness of the generated id is expressed by the
two no-collision hypotheses (MongoDB ObjectIds are unique). -/
theorem no_workflow_single_approve_scenario (db : DB) (p : SubmissionIn)
    (u1 : String)
    (hwf : p.workflow_id = none)
    (hfreshSub : db.findOne .submission (toString db.nextId) = none)
    (hfreshAppr : approvalsFor db (toString db.nextId) = []) :
    statusOf (createSubmission db p).1 (createSubmission db p).2
      = some "pending" ∧
    (actOnSubmission (createSubmission db p).1
        ⟨(createSubmission db p).2, "approved", some u1, none⟩).2
      = .ok ((createSubmission db p).2, "approved") ∧
    statusOf
        (actOnSubmission (createSubmission db p).1
          ⟨(createSubmission db p).2, "approved", some u1, none⟩).1
        (createSubmission db p).2
      = some "approved" ∧
    approvalsFor
        (actOnSubmission (createSubmission db p).1
          ⟨(createSubmission db p).2, "approved", some u1, none⟩).1
        (createSubmission db p).2
      = [approvalRecord ⟨(createSubmission db p).2, "approved", some u1, none⟩] ∧
    (approvalRecord ⟨(createSubmission db p).2, "approved", some u1, none⟩).get
        "action" = some (.vStr "approved") ∧
    (approvalRecord ⟨(createSubmission db p).2, "approved", some u1, none⟩).get
        "actor_id" = some (.vStr u1) := by
  have hid : (createSubmission db p).2 = toString db.nextId := rfl
  have hfind : (createSubmission db p).1.findOne .submission
      (createSubmission db p).2
        = some [("form_id", .vStr p.form_id),
                ("workflow_id", optStr p.workflow_id),
                ("data", .vDoc p.data), ("requester_id", optStr p.requester_id),
                ("status", .vStr "pending")] := by
    rw [hid]
    exact DB.findOne_createDocument_fresh db .submission _ hfreshSub
  have ha : (("approved" : String) = "approved" ∨ ("approved" : String) = "rejected") :=
    Or.inl rfl
  refine ⟨?_, ?_, ?_, ?_, rfl, rfl⟩
  · unfold statusOf subField
    rw [hfind, Option.some_bind]
    rfl
  · rw [actOnSubmission_ok (createSubmission db p).1
      ⟨(createSubmission db p).2, "approved", some u1, none⟩ _ ha hfind]
    rfl
  · have h := statusOf_actOnSubmission_ok (createSubmission db p).1
      ⟨(createSubmission db p).2, "approved", some u1, none⟩ _ ha hfind
    simpa using h
  · have h := approvalsFor_actOnSubmission_ok (createSubmission db p).1
      ⟨(createSubmission db p).2, "approved", some u1, none⟩ _ ha hfind
    rw [h]
    have happr : approvalsFor (createSubmission db p).1
        (createSubmission db p).2 = [] := by
      unfold approvalsFor at hfreshAppr ⊢
      have : (createSubmission db p).1.approval = db.approval :=
        DB.getColl_createDocument_ne db .submission .approval _ (by simp)
      rw [this, hid]
      exact hfreshAppr
    rw [happr]
    rfl

/-- Witness for `no_workflow_single_approve_scenario` on the empty store and
the spec's §8 scenario payload. -/
theorem no_workflow_single_approve_scenario_witness :
    statusOf (createSubmission DB.empty sampleSub).1
        (createSubmission DB.empty sampleSub).2
      = some "pending" ∧
    (actOnSubmission (createSubmission DB.empty sampleSub).1
        ⟨(createSubmission DB.empty sampleSub).2, "approved", some "u1",
         none⟩).2
      = .ok ((createSubmission DB.empty sampleSub).2, "approved") ∧
    statusOf
        (actOnSubmission (createSubmission DB.empty sampleSub).1
          ⟨(createSubmission DB.empty sampleSub).2, "approved", some "u1",
           none⟩).1
        (createSubmission DB.empty sampleSub).2
      = some "approved" ∧
    approvalsFor
        (actOnSubmission (createSubmission DB.empty sampleSub).1
          ⟨(createSubmission DB.empty sampleSub).2, "approved", some "u1",
           none⟩).1
        (createSubmission DB.empty sampleSub).2
      = [approvalRecord ⟨(createSubmission DB.empty sampleSub).2, "approved",
                         some "u1", none⟩] ∧
    (approvalRecord ⟨(createSubmission DB.empty sampleSub).2, "approved",
                     some "u1", none⟩).get "action"
      = some (.vStr "approved") ∧
    (approvalRecord ⟨(createSubmission DB.empty sampleSub).2, "approved",
                     some "u1", none⟩).get "actor_id"
      = some (.vStr "u1") :=
  no_workflow_single_approve_scenario DB.empty sampleSub "u1" rfl rfl rfl

end WorkflowApp

namespace WorkflowApp

/-! ### C7 -/

/-- C7 counterexample: the submission document `create_submission` stores
carries status `pending` but NO `current_step_index` field at all — the
field is absent from the stored document, not initialized to 0. -/
theorem no_step_index_counterexample :
    subField (createSubmission DB.empty sampleSub).1 "0" "status"
      = some (.vStr "pending") ∧
    subField (createSubmission DB.empty sampleSub).1 "0" "current_step_index"
      = none :=
  ⟨rfl, rfl⟩

/-- C7 (amended): submission intake initializes status = pending only; no
`current_step_index` field is ever written (it is absent from the source's
data model). -/
theorem createSubmission_initializes_status_only (db : DB) (p : SubmissionIn)
    (hfreshSub : db.findOne .submission (toString db.nextId) = none) :
    subField (createSubmission db p).1 (createSubmission db p).2 "status"
      = some (.vStr "pending") ∧
    subField (createSubmission db p).1 (createSubmission db p).2
        "current_step_index"
      = none := by
  have hfind : (createSubmission db p).1.findOne .submission
      (createSubmission db p).2
        = some [("form_id", .vStr p.form_id),
                ("workflow_id", optStr p.workflow_id),
                ("data", .vDoc p.data), ("requester_id", optStr p.requester_id),
                ("status", .vStr "pending")] :=
    DB.findOne_createDocument_fresh db .submission _ hfreshSub
  unfold subField
  rw [hfind, Option.some_bind]
  exact ⟨rfl, rfl⟩

/-- Witness for `createSubmission_initializes_status_only` on the empty
store. -/
theorem createSubmission_initializes_status_only_witness :
    subField (createSubmission DB.empty sampleSub).1
        (createSubmission DB.empty sampleSub).2 "status"
      = some (.vStr "pending") ∧
    subField (createSubmission DB.empty sampleSub).1
        (createSubmission DB.empty sampleSub).2 "current_step_index"
      = none :=
  createSubmission_initializes_status_only DB.empty sampleSub rfl

/-! ### C10 -/

/-- C10: every successful approve/reject call appends exactly the record
`approvalRecord`, whose comment is the empty string when the caller supplies
no comment, and which never carries a `step_name` field — even when the
submission references a workflow with named steps. -/
theorem approval_record_comment_default_and_no_step_name (db : DB)
    (p : ApprovalIn)
    (h : (actOnSubmission db p).2.isOk = true) :
    (actOnSubmission db p).1.approval
      = db.approval ++ [(toString db.nextId, approvalRecord p)] ∧
    (p.comment = none →
      (approvalRecord p).get "comment" = some (.vStr "")) ∧
    (approvalRecord p).get "step_name" = none := by
  obtain ⟨ha, d, hf⟩ := actOnSubmission_isOk_inv db p h
  refine ⟨ok_approval db p d ha hf, ?_, rfl⟩
  intro hc
  simp [approvalRecord, pyOr, hc, Doc.get, List.find?_cons]

/-- Witness for `approval_record_comment_default_and_no_step_name` on the
two-step workflow scene (submission `"1"` references workflow `"0"` whose
steps are named), with no comment supplied. -/
theorem approval_record_comment_default_and_no_step_name_witness :
    (actOnSubmission wfSubDb ⟨"1", "approved", some "u1", none⟩).1.approval
      = wfSubDb.approval
        ++ [(toString wfSubDb.nextId,
             approvalRecord ⟨"1", "approved", some "u1", none⟩)] ∧
    ((⟨"1", "approved", some "u1", none⟩ : ApprovalIn).comment = none →
      (approvalRecord ⟨"1", "approved", some "u1", none⟩).get "comment"
        = some (.vStr "")) ∧
    (approvalRecord ⟨"1", "approved", some "u1", none⟩).get "step_name"
      = none :=
  approval_record_comment_default_and_no_step_name wfSubDb
    ⟨"1", "approved", some "u1", none⟩ rfl

end WorkflowApp

namespace WorkflowApp

theorem DB.any_of_findOne (db : DB) (c : Coll) (id : String) (d : Doc)
    (h : db.findOne c id = some d) :
    (db.getColl c).any (fun p => p.1 == id) = true := by
  rcases Option.map_eq_some'.mp h with ⟨e, he, _⟩
  exact List.any_eq_true.mpr ⟨e, List.mem_of_find?_eq_some he, by
    simpa using List.find?_some he⟩

theorem archiveDocument_found (db : DB) (did : String) (d : Doc)
    (h : db.findOne .document did = some d) :
    archiveDocument db did
      = ((db.updateOne .document did
            [("archived", .vBool true), ("updated_at", .vTime db.now)]).1,
         .ok did) := by
  have h2 : (db.updateOne .document did
      [("archived", .vBool true), ("updated_at", .vTime db.now)]).2 = 1 := by
    unfold DB.updateOne
    rw [if_pos (DB.any_of_findOne db .document did d h)]
  have hupd : db.updateOne .document did
      [("archived", .vBool true), ("updated_at", .vTime db.now)]
      = ((db.updateOne .document did
          [("archived", .vBool true), ("updated_at", .vTime db.now)]).1, 1) := by
    rw [← h2]
  unfold archiveDocument
  rw [hupd]
  rfl

theorem archiveDocument_not_found (db : DB) (did : String)
    (h : db.findOne .document did = none) :
    archiveDocument db did = (db, .error (.notFound "Document not found")) := by
  have hany : ((db.getColl .document).any (fun p => p.1 == did)) = false := by
    rw [List.any_eq_false]
    intro e he
    intro hbeq
    have hfind := List.find?_eq_none.mp (Option.map_eq_none'.mp h) e he
    exact hfind hbeq
  have hupd : db.updateOne .document did
      [("archived", .vBool true), ("updated_at", .vTime db.now)] = (db, 0) := by
    unfold DB.updateOne
    rw [hany]
    rfl
  unfold archiveDocument
  rw [hupd]
  rfl

/-! ### C9 -/

/-- C9: `archive_document` on an existing document flips only that
document's `archived` flag (to true) and its `updated_at` timestamp; every
other field of the document, every other document, and every other stored
entity (forms, workflows, submissions, approvals, templates, the id
generator and the clock) are unchanged.  On an unknown id it fails NotFound
and changes nothing. -/
theorem archiveDocument_frame (db : DB) (did : String) :
    (∀ d, db.findOne .document did = some d →
      (archiveDocument db did).2 = .ok did ∧
      (archiveDocument db did).1.findOne .document did
        = some ((d.set "archived" (.vBool true)).set "updated_at"
            (.vTime db.now)) ∧
      (∀ k, k ≠ "archived" → k ≠ "updated_at" →
        ((d.set "archived" (.vBool true)).set "updated_at"
            (.vTime db.now)).get k = d.get k) ∧
      (∀ id', id' ≠ did →
        (archiveDocument db did).1.findOne .document id'
          = db.findOne .document id') ∧
      (archiveDocument db did).1.form = db.form ∧
      (archiveDocument db did).1.workflow = db.workflow ∧
      (archiveDocument db did).1.submission = db.submission ∧
      (archiveDocument db did).1.approval = db.approval ∧
      (archiveDocument db did).1.template = db.template ∧
      (archiveDocument db did).1.nextId = db.nextId ∧
      (archiveDocument db did).1.now = db.now) ∧
    (db.findOne .document did = none →
      archiveDocument db did = (db, .error (.notFound "Document not found"))) := by
  constructor
  · intro d hd
    rw [archiveDocument_found db did d hd]
    refine ⟨rfl, ?_, ?_, ?_, ?_, ?_, ?_, ?_, ?_, ?_, ?_⟩
    · have := DB.findOne_updateOne_self db .document did
        [("archived", .vBool true), ("updated_at", .vTime db.now)] d hd
      simpa [Doc.setMany] using this
    · intro k hk1 hk2
      rw [Doc.get_set_ne _ _ _ _ hk2, Doc.get_set_ne _ _ _ _ hk1]
    · intro id' hid
      exact DB.findOne_updateOne_ne db .document did id' _ hid
    · exact DB.getColl_updateOne_ne db .document .form did _ (by simp)
    · exact DB.getColl_updateOne_ne db .document .workflow did _ (by simp)
    · exact DB.getColl_updateOne_ne db .document .submission did _ (by simp)
    · exact DB.getColl_updateOne_ne db .document .approval did _ (by simp)
    · exact DB.getColl_updateOne_ne db .document .template did _ (by simp)
    · exact DB.nextId_updateOne db .document did _
    · exact DB.now_updateOne db .document did _
  · exact archiveDocument_not_found db did

end WorkflowApp

namespace WorkflowApp

/-- Witness for `archiveDocument_frame`: archiving the concrete document
`"1"` succeeds, and archiving the unknown id `"9"` fails NotFound leaving
the store unchanged. -/
theorem archiveDocument_frame_witness :
    (archiveDocument docDb "1").2 = .ok "1" ∧
    archiveDocument docDb "9" = (docDb, .error (.notFound "Document not found")) :=
  ⟨((archiveDocument_frame docDb "1").1 _ rfl).1,
   (archiveDocument_frame docDb "9").2 rfl⟩

/-! ### C8 -/

theorem subInv_applyOp (db : DB) (op : Op) (h : subInv db) :
    subInv (applyOp db op) := by
  cases op with
  | createForm p =>
    have hs : (createForm db p).1.submission = db.submission :=
      DB.getColl_createDocument_ne db .form .submission _ (by simp)
    intro e he
    rw [applyOp] at he
    rw [hs] at he
    exact h e he
  | createWorkflow p =>
    have hs : (createWorkflow db p).1.submission = db.submission :=
      DB.getColl_createDocument_ne db .workflow .submission _ (by simp)
    intro e he
    rw [applyOp] at he
    rw [hs] at he
    exact h e he
  | generatePdf rl s p =>
    intro e he
    rw [applyOp] at he
    rw [generatePdf_submission rl db s p] at he
    exact h e he
  | archiveDocument did =>
    intro e he
    rw [applyOp] at he
    rw [archiveDocument_submission db did] at he
    exact h e he
  | seedTemplates =>
    intro e he
    rw [applyOp] at he
    rw [seedTemplates_submission db] at he
    exact h e he
  | createSubmission p =>
    have hs : (createSubmission db p).1.submission
        = db.submission
          ++ [(toString db.nextId,
               [("form_id", .vStr p.form_id),
                ("workflow_id", optStr p.workflow_id),
                ("data", .vDoc p.data),
                ("requester_id", optStr p.requester_id),
                ("status", .vStr "pending")])] :=
      DB.getColl_createDocument_self db .submission _
    intro e he
    rw [applyOp] at he
    rw [hs] at he
    rcases List.mem_append.mp he with h1 | h2
    · exact h e h1
    · have he2 := List.mem_singleton.mp h2
      subst he2
      exact ⟨"pending", rfl, Or.inl rfl⟩
  | actOnSubmission p =>
    by_cases ha : p.action = "approved" ∨ p.action = "rejected"
    · cases hf : db.findOne .submission p.submission_id with
      | none =>
        intro e he
        rw [applyOp, actOnSubmission_notFound db p ha hf] at he
        exact h e he
      | some d =>
        intro e he
        rw [applyOp, actOnSubmission_ok db p d ha hf] at he
        have hsub : (((db.updateOne .submission p.submission_id
            [("status", .vStr (if p.action = "approved" then "approved"
                               else "rejected")),
             ("updated_at", .vTime db.now)]).1).createDocument .approval
              (approvalRecord p)).1.submission
            = ((db.updateOne .submission p.submission_id
                [("status", .vStr (if p.action = "approved" then "approved"
                                   else "rejected")),
                 ("updated_at", .vTime db.now)]).1).submission :=
          DB.getColl_createDocument_ne _ .approval .submission _ (by simp)
        rw [hsub] at he
        unfold DB.updateOne at he
        by_cases hany : ((db.getColl .submission).any
            (fun q => q.1 == p.submission_id)) = true
        · rw [if_pos hany] at he
          have he' : e ∈ (db.getColl Coll.submission).map
              (fun q => if q.1 == p.submission_id
                        then (q.1, q.2.setMany
                          [("status", .vStr (if p.action = "approved"
                                             then "approved" else "rejected")),
                           ("updated_at", .vTime db.now)])
                        else q) := he
          rcases List.mem_map.mp he' with ⟨e0, he0, heq⟩
          by_cases hkey : (e0.1 == p.submission_id) = true
          · rw [if_pos hkey] at heq
            subst heq
            refine ⟨if p.action = "approved" then "approved" else "rejected",
              ?_, ?_⟩
            · show Doc.get (e0.2.setMany
                [("status", .vStr (if p.action = "approved" then "approved"
                                   else "rejected")),
                 ("updated_at", .vTime db.now)]) "status" = _
              rw [show Doc.setMany e0.2
                    [("status", .vStr (if p.action = "approved" then "approved"
                                       else "rejected")),
                     ("updated_at", .vTime db.now)]
                  = ((e0.2.set "status"
                      (.vStr (if p.action = "approved" then "approved"
                              else "rejected"))).set "updated_at"
                      (.vTime db.now)) from rfl]
              rw [Doc.get_set_ne _ _ _ _ (by decide), Doc.get_set_self]
            · by_cases hA : p.action = "approved"
              · rw [if_pos hA]
                exact Or.inr (Or.inl rfl)
              · rw [if_neg hA]
                exact Or.inr (Or.inr rfl)
          · rw [if_neg hkey] at heq
            subst heq
            exact h e0 he0
        · rw [if_neg hany] at he
          exact h e he
    · intro e he
      rw [applyOp, actOnSubmission_invalid db p ha] at he
      exact h e he

theorem subInv_run (db : DB) (ops : List Op) (h : subInv db) :
    subInv (run db ops) := by
  induction ops generalizing db with
  | nil => exact h
  | cons op rest ih => exact ih (applyOp db op) (subInv_applyOp db op h)

end WorkflowApp

namespace WorkflowApp

/-- C8: along every trace of write requests from the empty store, every
stored submission's status is one of pending/approved/rejected/archived —
and in fact never `archived`: the Approval Engine only ever writes
`approved` or `rejected`, and no endpoint archives a submission at all
(`archive_document` touches only the document collection), so `archived`
would be reachable only through an explicit archive action, which the API
does not offer for submissions. -/
theorem submission_status_enum_and_never_archived :
    (∀ (ops : List Op), ∀ e ∈ (run DB.empty ops).submission,
      ∃ s, (Doc.get e.2 "status") = some (.vStr s) ∧
        (s = "pending" ∨ s = "approved" ∨ s = "rejected" ∨ s = "archived") ∧
        s ≠ "archived") ∧
    (∀ (db : DB) (p : ApprovalIn),
      (actOnSubmission db p).2.isOk = true →
      statusOf (actOnSubmission db p).1 p.submission_id = some "approved" ∨
      statusOf (actOnSubmission db p).1 p.submission_id = some "rejected") := by
  constructor
  · intro ops e he
    have hinv : subInv (run DB.empty ops) :=
      subInv_run DB.empty ops (by intro x hx; cases hx)
    obtain ⟨s, hs, hcase⟩ := hinv e he
    refine ⟨s, hs, ?_, ?_⟩
    · rcases hcase with h1 | h2 | h3
      · exact Or.inl h1
      · exact Or.inr (Or.inl h2)
      · exact Or.inr (Or.inr (Or.inl h3))
    · rcases hcase with h1 | h2 | h3 <;> subst_vars <;> decide
  · intro db p hok
    obtain ⟨ha, d, hf⟩ := actOnSubmission_isOk_inv db p hok
    have h := statusOf_actOnSubmission_ok db p d ha hf
    by_cases hA : p.action = "approved"
    · rw [if_pos hA] at h
      exact Or.inl h
    · rw [if_neg hA] at h
      exact Or.inr h

/-- Witness for `submission_status_enum_and_never_archived` on a concrete
two-request trace whose surviving submission is stored as `approved`. -/
theorem submission_status_enum_and_never_archived_witness :
    (∃ s, (Doc.get
        [("form_id", Value.vStr "formF"), ("workflow_id", Value.vNull),
         ("data", Value.vDoc [("vendor", Value.vStr "Acme"),
                              ("amount", Value.vInt 500)]),
         ("requester_id", Value.vNull), ("status", Value.vStr "approved"),
         ("updated_at", Value.vTime 0)] "status")
          = some (.vStr s) ∧
      (s = "pending" ∨ s = "approved" ∨ s = "rejected" ∨ s = "archived") ∧
      s ≠ "archived") ∧
    (statusOf
        (actOnSubmission sampleDb ⟨"0", "approved", some "u1", none⟩).1 "0"
      = some "approved" ∨
     statusOf
        (actOnSubmission sampleDb ⟨"0", "approved", some "u1", none⟩).1 "0"
      = some "rejected") :=
  ⟨submission_status_enum_and_never_archived.1
      [.createSubmission sampleSub,
       .actOnSubmission ⟨"0", "approved", some "u1", none⟩]
      ("0",
       [("form_id", Value.vStr "formF"), ("workflow_id", Value.vNull),
        ("data", Value.vDoc [("vendor", Value.vStr "Acme"),
                             ("amount", Value.vInt 500)]),
        ("requester_id", Value.vNull), ("status", Value.vStr "approved"),
        ("updated_at", Value.vTime 0)])
      (List.mem_singleton.mpr rfl),
   submission_status_enum_and_never_archived.2 sampleDb
      ⟨"0", "approved", some "u1", none⟩ rfl⟩

end WorkflowApp
